import Mathlib

/-!
Shallow embedding, in Lean 4, of the `LogRegression` wrapper class from
`src/ManufacturingNet/shallow_learning_methods/logistic_regression.py`.

The wrapper delegates all numerical work (splitting, fitting, prediction,
scoring) to an external collaborator (scikit-learn).  The collaborator is
modelled as a record of fallible functions (`Oracle`); every call site in
the source is mirrored by one oracle invocation, and each invocation is
logged in a `CallTag` trace so that "the collaborator was not invoked" is
a provable statement.  Printed lines and interactive prompts are modelled
as an event type `Out`; `input(...)` consumes the head of an explicit list
of operator responses (end of input is modelled as the empty string).
Python floats are modelled as rationals.
-/

set_option autoImplicit false

namespace ManufacturingNet

/-- Numeric tables (numpy arrays) are modelled as lists of rows of rationals.
Only the row count (`shape[0]`) and identity of a table matter to the wrapper. -/
abbrev Table := List (List ℚ)

/-- Value of a list of decimal digit characters, most significant first. -/
def digitsVal (l : List Char) : ℕ :=
  l.foldl (fun a c => a * 10 + (c.toNat - 48)) 0

/-- All characters are decimal digits. -/
def allDigits (l : List Char) : Bool :=
  l.all (fun c => c.isDigit)

/-- ASCII lowercasing of one character, as Python's `str.lower` does for the
ASCII range (all operator responses considered here are ASCII). -/
def lowerChar (c : Char) : Char :=
  if 65 ≤ c.toNat && c.toNat ≤ 90 then Char.ofNat (c.toNat + 32) else c

/-- Python's `s.lower()` for ASCII strings. -/
def pyLower (s : String) : String :=
  String.mk (s.data.map lowerChar)

/-- Python's `float(s)` builtin, modelled for plain decimal literals: an
optional sign, then digits with an optional decimal point (at least one digit
overall).  Exponents, `inf`/`nan` and surrounding whitespace are not modelled;
all operator responses considered here are plain literals or words. -/
def pyFloat (s : String) : Option ℚ :=
  let cs := s.toList
  let sb : ℚ × List Char :=
    match cs with
    | '+' :: r => (1, r)
    | '-' :: r => (-1, r)
    | r => (1, r)
  let ip := sb.2.takeWhile (fun c => c != '.')
  let rest := sb.2.dropWhile (fun c => c != '.')
  match rest with
  | [] =>
    if allDigits ip && !ip.isEmpty then some (sb.1 * digitsVal ip) else none
  | _ :: fp =>
    if allDigits ip && allDigits fp && !(ip.isEmpty && fp.isEmpty) then
      some (sb.1 * ((digitsVal ip : ℚ) + (digitsVal fp : ℚ) / (10 : ℚ) ^ fp.length))
    else none

/-- Python's `int(s)` builtin, modelled for plain integer literals: an optional
sign followed by at least one digit. -/
def pyInt (s : String) : Option ℤ :=
  let cs := s.toList
  let sb : ℤ × List Char :=
    match cs with
    | '+' :: r => (1, r)
    | '-' :: r => (-1, r)
    | r => (1, r)
  if allDigits sb.2 && !sb.2.isEmpty then some (sb.1 * digitsVal sb.2) else none

/-- Head of the remaining operator responses, i.e. the value returned by the
next `input(...)` call; an exhausted response list is modelled as the empty
string. -/
def firstInput (l : List String) : String :=
  l.headD ""

/-- Hyperparameters of the external `LogisticRegression` model object, exactly
the keyword arguments passed at the end of `_create_model` (source lines
422-425).  The default value of each field is scikit-learn's own default, which
coincides with the local defaults set at source lines 256-270. -/
structure Config where
  penalty : String := "l2"
  dual : Bool := false
  tol : ℚ := 1 / 10000
  C : ℚ := 1
  fit_intercept : Bool := true
  intercept_scaling : ℚ := 1
  class_weight : Option String := none
  random_state : Option ℤ := none
  solver : String := "lbfgs"
  max_iter : ℤ := 100
  multi_class : String := "auto"
  verbose : ℤ := 0
  warm_start : Bool := false
  n_jobs : Option ℤ := none
  l1_ratio : Option ℚ := none
deriving DecidableEq, Repr

/-- The all-defaults model configuration, i.e. `LogisticRegression()`. -/
def defaultConfig : Config := {}

/-- One printed line or interactive prompt of the wrapper.  Each constructor
stands for one `print(...)` or `input(...)` site of the source. -/
inductive Out where
  | errAttributesMissing
  | errLabelsMissing
  | errRowMismatch
  | fitExcHeader
  | excMsgIntro
  | excMsg (e : String)
  | resultsReport
  | predictMissingModel
  | predictFailHeader
  | predictions (ys : List ℚ)
  | paramHeader
  | askUseDefaults
  | endHeader
  | unsureNote
  | askTestSize
  | askCv
  | penaltyMenu
  | askPenalty
  | askDual
  | askTol
  | askC
  | askFitIntercept
  | askInterceptScaling
  | askClassWeight
  | manualWeightsNote
  | askRandomState
  | solverMenu
  | askSolver
  | askMaxIter
  | multiClassMenu
  | askMultiClass
  | askVerbose
  | askWarmStart
  | askNJobs
  | askL1Ratio
deriving DecidableEq, Repr

/-- State of one interactive parameter-collection session (`_create_model`):
the two instance fields it assigns (`test_size`, `cv`), the model
hyperparameters gathered so far, the remaining operator responses, the lines
printed so far, and whether a `break` has left the collection loop. -/
structure Sess where
  test_size : ℚ
  cv : Option ℤ
  cfg : Config
  inputs : List String
  outs : List Out
  stopped : Bool
deriving DecidableEq, Repr

/-- A float-valued prompt (source pattern `try: x = float(input(...)) except:
if input.lower() == "q": break`): emit the prompt, consume one response; on a
successful parse apply the update, otherwise keep the previous value, breaking
out of the loop only when the raw response lowercases to "q". -/
def floatPrompt (ask : List Out) (upd : Sess → ℚ → Sess) (st : Sess) : Sess :=
  if st.stopped then st else
    let u := firstInput st.inputs
    let st1 : Sess := { st with inputs := st.inputs.tail, outs := st.outs ++ ask }
    match pyFloat u with
    | some v => upd st1 v
    | none => if pyLower u == "q" then { st1 with stopped := true } else st1

/-- An int-valued prompt; same shape as `floatPrompt` with `int(...)`. -/
def intPrompt (ask : List Out) (upd : Sess → ℤ → Sess) (st : Sess) : Sess :=
  if st.stopped then st else
    let u := firstInput st.inputs
    let st1 : Sess := { st with inputs := st.inputs.tail, outs := st.outs ++ ask }
    match pyInt u with
    | some v => upd st1 v
    | none => if pyLower u == "q" then { st1 with stopped := true } else st1

/-- A yes/no style prompt (source pattern `u = input(...).lower(); if u ==
trigger: set; if u == "q": break`): the response is lowercased once, the field
is set when it equals the trigger, and the loop breaks when it is "q". -/
def ynPrompt (ask : List Out) (trigger : String) (hit : Config → Config) (st : Sess) : Sess :=
  if st.stopped then st else
    let u := pyLower (firstInput st.inputs)
    let st1 : Sess := { st with inputs := st.inputs.tail, outs := st.outs ++ ask }
    let st2 : Sess := if u == trigger then { st1 with cfg := hit st1.cfg } else st1
    if u == "q" then { st2 with stopped := true } else st2

/-- A menu prompt (source pattern `if u.lower() == "q": break; elif u == "1":
...; elif u == "3": ...`): break on the sentinel, otherwise apply the first
matching choice, and keep the previous value when none matches. -/
def choicePrompt (ask : List Out) (choices : List (String × (Config → Config))) (st : Sess) : Sess :=
  if st.stopped then st else
    let u := firstInput st.inputs
    let st1 : Sess := { st with inputs := st.inputs.tail, outs := st.outs ++ ask }
    if pyLower u == "q" then { st1 with stopped := true }
    else
      match choices.find? (fun p => p.1 == u) with
      | some p => { st1 with cfg := p.2 st1.cfg }
      | none => st1

/-- Source lines 272-279: the testing-set fraction (`self.test_size`). -/
def testSizeStep : Sess → Sess :=
  floatPrompt [Out.askTestSize] (fun st v => { st with test_size := v })

/-- Source lines 281-287: the cross-validation fold count (`self.cv`). -/
def cvStep : Sess → Sess :=
  intPrompt [Out.askCv] (fun st v => { st with cv := some v })

/-- Source lines 289-299: the penalization norm. -/
def penaltyStep : Sess → Sess :=
  choicePrompt [Out.penaltyMenu, Out.askPenalty]
    [("1", fun c => { c with penalty := "l1" }),
     ("3", fun c => { c with penalty := "elasticnet" }),
     ("4", fun c => { c with penalty := "none" })]

/-- Source lines 301-305: the dual-formulation flag. -/
def dualStep : Sess → Sess :=
  ynPrompt [Out.askDual] "y" (fun c => { c with dual := true })

/-- Source lines 307-313: the stopping tolerance. -/
def tolStep : Sess → Sess :=
  floatPrompt [Out.askTol] (fun st v => { st with cfg := { st.cfg with tol := v } })

/-- Source lines 315-321: the inverse regularization strength `C`. -/
def cStep : Sess → Sess :=
  floatPrompt [Out.askC] (fun st v => { st with cfg := { st.cfg with C := v } })

/-- Source lines 323-327: the intercept flag ("n" disables it). -/
def fitInterceptStep : Sess → Sess :=
  ynPrompt [Out.askFitIntercept] "n" (fun c => { c with fit_intercept := false })

/-- Source lines 329-335: the intercept scaling factor, prompted only when
`fit_intercept` currently holds. -/
def interceptScalingStep (st : Sess) : Sess :=
  if st.cfg.fit_intercept then
    floatPrompt [Out.askInterceptScaling]
      (fun st v => { st with cfg := { st.cfg with intercept_scaling := v } }) st
  else st

/-- Source lines 337-342: automatic class-weight balancing. -/
def classWeightStep : Sess → Sess :=
  ynPrompt [Out.askClassWeight] "y" (fun c => { c with class_weight := some "balanced" })

/-- Source lines 344-352: the note about manual weights, then the random seed. -/
def randomStateStep : Sess → Sess :=
  intPrompt [Out.manualWeightsNote, Out.askRandomState]
    (fun st v => { st with cfg := { st.cfg with random_state := some v } })

/-- Source lines 354-367: the solver menu. -/
def solverStep : Sess → Sess :=
  choicePrompt [Out.solverMenu, Out.askSolver]
    [("1", fun c => { c with solver := "newton-cg" }),
     ("3", fun c => { c with solver := "liblinear" }),
     ("4", fun c => { c with solver := "sag" }),
     ("5", fun c => { c with solver := "saga" })]

/-- Source lines 369-375: the iteration cap. -/
def maxIterStep : Sess → Sess :=
  intPrompt [Out.askMaxIter] (fun st v => { st with cfg := { st.cfg with max_iter := v } })

/-- Source lines 377-385: the multiclass scheme menu. -/
def multiClassStep : Sess → Sess :=
  choicePrompt [Out.multiClassMenu, Out.askMultiClass]
    [("1", fun c => { c with multi_class := "ovr" }),
     ("2", fun c => { c with multi_class := "multinomial" })]

/-- Source lines 387-392: the verbosity flag. -/
def verboseStep : Sess → Sess :=
  ynPrompt [Out.askVerbose] "y" (fun c => { c with verbose := 1 })

/-- Source lines 394-399: the warm-start flag. -/
def warmStartStep : Sess → Sess :=
  ynPrompt [Out.askWarmStart] "y" (fun c => { c with warm_start := true })

/-- Source lines 401-407: the computation job count. -/
def nJobsStep : Sess → Sess :=
  intPrompt [Out.askNJobs] (fun st v => { st with cfg := { st.cfg with n_jobs := some v } })

/-- Source lines 409-414: the elastic-net mixing parameter, prompted only when
the penalty chosen earlier in the session is "elasticnet".  Unlike every
earlier numeric prompt, a parse failure here breaks out of the loop without a
sentinel check (`except: break`); the field keeps its previous value. -/
def l1RatioStep (st : Sess) : Sess :=
  if st.stopped then st else
    if st.cfg.penalty == "elasticnet" then
      let u := firstInput st.inputs
      let st1 : Sess := { st with inputs := st.inputs.tail, outs := st.outs ++ [Out.askL1Ratio] }
      match pyFloat u with
      | some v => { st1 with cfg := { st1.cfg with l1_ratio := some v } }
      | none => { st1 with stopped := true }
    else st

/-- The body of the `while True:` loop of `_create_model` (source lines
272-416).  The loop ends with an unconditional `break`, so it executes at most
once; the earlier `break` statements are modelled by the `stopped` flag, which
makes every later step a no-op. -/
def loopSteps (st : Sess) : Sess :=
  l1RatioStep (nJobsStep (warmStartStep (verboseStep (multiClassStep (maxIterStep
    (solverStep (randomStateStep (classWeightStep (interceptScalingStep
      (fitInterceptStep (cStep (tolStep (dualStep (penaltyStep (cvStep
        (testSizeStep st))))))))))))))))

/-- Source `_create_model` (lines 234-425): ask whether to use defaults (any
response other than a case-insensitive "n" accepts them and returns
`LogisticRegression()` after one more "press any key" response); otherwise set
the local defaults, walk the prompts, consume the final "press any key"
response, and return the model built from the gathered values. -/
def create_model (inputs : List String) : Sess :=
  let u := firstInput inputs
  let rest := inputs.tail
  let outs0 := [Out.paramHeader, Out.askUseDefaults]
  if pyLower u != "n" then
    { test_size := 1 / 4, cv := none, cfg := defaultConfig,
      inputs := rest.tail, outs := outs0 ++ [Out.endHeader], stopped := false }
  else
    let st0 : Sess :=
      { test_size := 1 / 4, cv := none, cfg := defaultConfig,
        inputs := rest, outs := outs0 ++ [Out.unsureNote], stopped := false }
    let st1 := loopSteps st0
    { st1 with inputs := st1.inputs.tail, outs := st1.outs ++ [Out.endHeader] }

/-- Results of a successful external fit: the attributes the source reads from
the fitted handle (`classes_`, `coef_`, `intercept_`, `n_iter_`). -/
structure FittedModel where
  classes_ : List ℚ
  coef_ : List (List ℚ)
  intercept_ : List ℚ
  n_iter_ : List ℕ
deriving DecidableEq, Repr

/-- The external model object held in `self.regression`: its construction
parameters, and the fit results once `fit` has succeeded (scikit-learn fits
the object in place; before `fit`, the handle is unfitted). -/
structure Model where
  params : Config
  fitted : Option FittedModel
deriving DecidableEq, Repr

/-- Instance state of a `LogRegression` object.  One field per instance
attribute assigned anywhere in the class: the fourteen assigned in `__init__`
(source lines 53-68) plus `coefficients` and `intercept`, which `run` assigns
on a successful fit (source lines 192-193); the latter two are absent (`none`)
until then. -/
structure LogRegression where
  attributes : Option Table := none
  labels : Option Table := none
  test_size : Option ℚ := none
  cv : Option ℤ := none
  regression : Option Model := none
  classes_ : Option (List ℚ) := none
  coef_ : Option (List (List ℚ)) := none
  intercept_ : Option (List ℚ) := none
  n_iter_ : Option (List ℕ) := none
  accuracy : Option ℚ := none
  precision : Option ℚ := none
  «recall» : Option ℚ := none
  roc_auc : Option ℚ := none
  cross_val_scores : Option (List ℚ) := none
  coefficients : Option (List (List ℚ)) := none
  intercept : Option (List ℚ) := none
deriving DecidableEq, Repr

/-- Source `__init__` (lines 14-68): store the dataset, leave every other
field `None`. -/
def init (attributes labels : Option Table) : LogRegression :=
  { attributes := attributes, labels := labels }

/-- Source `set_attributes` (lines 150-156). -/
def set_attributes (s : LogRegression) (new_attributes : Option Table) : LogRegression :=
  { s with attributes := new_attributes }

/-- Source `set_labels` (lines 158-164). -/
def set_labels (s : LogRegression) (new_labels : Option Table) : LogRegression :=
  { s with labels := new_labels }

/-- Names of the instance attributes assigned (as `self.<name> = ...`)
anywhere in the class: fourteen in `__init__`, `attributes` and `labels` again
in the modifier methods, `test_size` and `cv` in `_create_model`, and
`regression`, `classes_`, `coefficients`, `intercept`, `n_iter_`, `accuracy`,
`roc_auc`, `cross_val_scores` in `run`.  The name `classes` (read by
`get_classes`, source line 98) is never assigned. -/
def assignedAttrNames : List String :=
  ["attributes", "labels", "test_size", "cv", "regression", "classes_",
   "coef_", "intercept_", "n_iter_", "accuracy", "precision", "recall",
   "roc_auc", "cross_val_scores", "coefficients", "intercept"]

/-- Result of reading an instance attribute: the value, or Python's
`AttributeError` when the name was never assigned on the instance (and, as
here, is not a class attribute either). -/
inductive GetResult (α : Type) where
  | ok (a : α)
  | attributeError
deriving DecidableEq, Repr

/-- Source `get_classes` (lines 92-98): its body is `return self.classes`.
Python resolves `self.classes` against the instance dictionary; `classes` is
not among the attributes ever assigned, so the read raises `AttributeError`
(the learned class labels live under `classes_`). -/
def get_classes (_s : LogRegression) : GetResult Unit :=
  if assignedAttrNames.contains "classes" then GetResult.ok () else GetResult.attributeError

/-- Source `get_regression` (lines 100-106). -/
def get_regression (s : LogRegression) : Option Model :=
  s.regression

/-- Source `get_coefficents` (lines 108-114): returns `self.coef_`, the field
initialized to `None` in `__init__` (run() stores the learned coefficient
matrix under `coefficients`, not `coef_`). -/
def get_coefficents (s : LogRegression) : Option (List (List ℚ)) :=
  s.coef_

/-- Source `get_attributes` (lines 72-80). -/
def get_attributes (s : LogRegression) : Option Table :=
  s.attributes

/-- Source `get_labels` (lines 82-90). -/
def get_labels (s : LogRegression) : Option Table :=
  s.labels

/-- Source `get_accuracy` (lines 124-130). -/
def get_accuracy (s : LogRegression) : Option ℚ :=
  s.accuracy

/-- Source `get_roc_auc` (lines 132-138). -/
def get_roc_auc (s : LogRegression) : Option ℚ :=
  s.roc_auc

/-- Source `get_cross_val_scores` (lines 140-146). -/
def get_cross_val_scores (s : LogRegression) : Option (List ℚ) :=
  s.cross_val_scores

/-- One invocation of an external collaborator routine.  `run` and `predict`
log each call they make, so "the collaborator was not invoked" is the
statement that the logged trace is empty. -/
inductive CallTag where
  | train_test_split
  | fit
  | predict
  | predict_proba
  | accuracy_score
  | roc_auc_score
  | cross_val_score
deriving DecidableEq, Repr

/-- The external collaborator (scikit-learn).  Each routine may fault; a fault
is an exception carrying a message string. -/
structure Oracle where
  train_test_split : Table → Table → ℚ → Except String (Table × Table × Table × Table)
  fit : Config → Table → List ℚ → Except String FittedModel
  predict : Model → Table → Except String (List ℚ)
  predict_proba : Model → Table → Except String (List (List ℚ))
  accuracy_score : List ℚ → Table → Except String ℚ
  roc_auc_score : List ℚ → List ℚ → Except String ℚ
  cross_val_score : Model → Table → Table → Option ℤ → Except String (List ℚ)

/-- Source `np.ravel`: flatten a table to a single list. -/
def ravel (t : Table) : List ℚ :=
  t.flatten

/-- Column 1 of a probability matrix, i.e. the source's `[::, 1]` slice of
`predict_proba`'s result (the class-1 probability of each row; the index is
assumed in range, out-of-range rows yielding 0 in the model). -/
def col1 (m : List (List ℚ)) : List ℚ :=
  m.map (fun r => r.getD 1 0)

/-- Source `_check_inputs` (lines 448-471): attributes present, labels
present, equal row counts.  Returns the validated tables on success, `none`
plus the printed diagnostic on any violation. -/
def check_inputs (s : LogRegression) : Option (Table × Table) × List Out :=
  match s.attributes with
  | none => (none, [Out.errAttributesMissing])
  | some attrs =>
    match s.labels with
    | none => (none, [Out.errLabelsMissing])
    | some labs =>
      if attrs.length != labs.length then (none, [Out.errRowMismatch])
      else (some (attrs, labs), [])

/-- Source `run` (lines 168-206).  A normal return is `Except.ok` carrying the
updated instance state, the trace of collaborator calls made, and the printed
lines; an uncaught Python exception propagating out of `run` is `Except.error`
carrying the exception message (only the `fit` call sits inside a
`try`/`except`; a fault from any other collaborator routine propagates). -/
def run (s : LogRegression) (o : Oracle) (inputs : List String) :
    Except String (LogRegression × List CallTag × List Out) :=
  match check_inputs s with
  | (none, outs) => Except.ok (s, [], outs)
  | (some (attrs, labs), _) =>
    let cm := create_model inputs
    let s1 : LogRegression :=
      { s with test_size := some cm.test_size, cv := cm.cv,
               regression := some { params := cm.cfg, fitted := none } }
    match o.train_test_split attrs labs cm.test_size with
    | Except.error e => Except.error e
    | Except.ok (Xtrain, Xtest, ytrain, ytest) =>
      match o.fit cm.cfg Xtrain (ravel ytrain) with
      | Except.error e =>
        Except.ok ({ s1 with regression := none },
                   [CallTag.train_test_split, CallTag.fit],
                   cm.outs ++ [Out.fitExcHeader, Out.excMsgIntro, Out.excMsg e])
      | Except.ok fm =>
        let model : Model := { params := cm.cfg, fitted := some fm }
        let s2 : LogRegression :=
          { s1 with regression := some model, classes_ := some fm.classes_,
                    coefficients := some fm.coef_, intercept := some fm.intercept_,
                    n_iter_ := some fm.n_iter_ }
        match o.predict model Xtest with
        | Except.error e => Except.error e
        | Except.ok ypred =>
          match o.predict_proba model Xtest with
          | Except.error e => Except.error e
          | Except.ok probas =>
            match o.accuracy_score ypred ytest with
            | Except.error e => Except.error e
            | Except.ok acc =>
              match o.roc_auc_score ypred (col1 probas) with
              | Except.error e => Except.error e
              | Except.ok auc =>
                match o.cross_val_score model attrs labs cm.cv with
                | Except.error e => Except.error e
                | Except.ok cvs =>
                  Except.ok
                    ({ s2 with accuracy := some acc, roc_auc := some auc,
                               cross_val_scores := some cvs },
                     [CallTag.train_test_split, CallTag.fit, CallTag.predict,
                      CallTag.predict_proba, CallTag.accuracy_score,
                      CallTag.roc_auc_score, CallTag.cross_val_score],
                     cm.outs ++ [Out.resultsReport])

/-- Source `predict` (lines 208-230): no result and a diagnostic when the
model handle is absent; otherwise delegate to the collaborator, whose single
call sits inside a `try`/`except`, so a fault becomes a diagnostic with the
underlying message and no result.  The instance state is never modified. -/
def predict (s : LogRegression) (o : Oracle) (X : Table) :
    Option (List ℚ) × List CallTag × List Out :=
  match s.regression with
  | none => (none, [], [Out.predictMissingModel])
  | some m =>
    match o.predict m X with
    | Except.error e =>
      (none, [CallTag.predict], [Out.predictFailHeader, Out.excMsgIntro, Out.excMsg e])
    | Except.ok y => (some y, [CallTag.predict], [Out.predictions y])

/-- Whether an `Except` value is a fault (an uncaught exception). -/
def isFault {ε α : Type} : Except ε α → Bool
  | Except.error _ => true
  | Except.ok _ => false

/-- Instance state carried by a normal return of `run` (the fresh state on a
fault, where the Python object would be left mid-mutation). -/
def resState (r : Except String (LogRegression × List CallTag × List Out)) : LogRegression :=
  match r with
  | Except.ok (st, _, _) => st
  | Except.error _ => init none none

/-- Number of folds the collaborator uses: the configured count when present,
its own default `d` when the configuration leaves it unset. -/
def foldCount (k : Option ℤ) (d : ℕ) : ℕ :=
  match k with
  | some n => n.toNat
  | none => d

/-- A collaborator on which every routine succeeds; its cross-validation
routine returns one score per fold, with default fold count 5. -/
def okOracle : Oracle where
  train_test_split := fun a l _ => Except.ok (a, a, l, l)
  fit := fun _ _ _ => Except.ok { classes_ := [0, 1], coef_ := [[1]], intercept_ := [0], n_iter_ := [7] }
  predict := fun _ _ => Except.ok [1]
  predict_proba := fun _ _ => Except.ok [[0, 1]]
  accuracy_score := fun _ _ => Except.ok 1
  roc_auc_score := fun _ _ => Except.ok 1
  cross_val_score := fun _ _ _ k => Except.ok (List.replicate (foldCount k 5) 1)

/-- A collaborator whose fit routine always faults; every other routine
succeeds. -/
def fitFaultOracle : Oracle :=
  { okOracle with fit := fun _ _ _ => Except.error "bad input shapes" }

/-- A collaborator whose predict routine always faults. -/
def predFaultOracle : Oracle :=
  { okOracle with predict := fun _ _ => Except.error "wrong feature count" }

/-- A collaborator whose train/test splitting routine always faults. -/
def splitFaultOracle : Oracle :=
  { okOracle with train_test_split := fun _ _ _ => Except.error "split failed" }

/-- A dataset whose attribute table has two rows but whose label table has
one: the row counts disagree. -/
def mismatchedState : LogRegression :=
  init (some [[1], [2]]) (some [[3]])

/-- A one-row dataset on which every validation check passes. -/
def tinyState : LogRegression :=
  init (some [[1]]) (some [[0]])

/-- A state holding an (unfitted) model handle, as left by an interrupted
run; used to exercise `predict` with a present handle. -/
def handleState : LogRegression :=
  { init none none with regression := some { params := defaultConfig, fitted := none } }

/-- A collection session about to issue its next prompt: defaults in place,
a single unparsable response pending. -/
def sampleSess : Sess :=
  { test_size := 1 / 4, cv := none, cfg := defaultConfig,
    inputs := ["abc"], outs := [], stopped := false }

/-- A session whose penalty was set to elastic-net earlier in the same
session. -/
def elasticSess : Sess :=
  { sampleSess with cfg := { defaultConfig with penalty := "elasticnet" } }

/-- A session in which intercept fitting was disabled earlier in the same
session. -/
def noInterceptSess : Sess :=
  { sampleSess with cfg := { defaultConfig with fit_intercept := false } }

/-- Validation succeeds exactly on present tables with equal row counts. -/
theorem check_inputs_valid (s : LogRegression) (attrs labs : Table)
    (ha : s.attributes = some attrs) (hl : s.labels = some labs)
    (hlen : attrs.length = labs.length) :
    check_inputs s = (some (attrs, labs), []) := by
  simp [check_inputs, ha, hl, hlen]

/-- Full description of `run` on the all-success path: every collaborator
routine is invoked once, in order, and every result field is stored. -/
theorem run_success (s : LogRegression) (o : Oracle) (inputs : List String)
    (attrs labs Xtrain Xtest ytrain ytest : Table) (fm : FittedModel)
    (ypred : List ℚ) (probas : List (List ℚ)) (acc auc : ℚ) (cvs : List ℚ)
    (ha : s.attributes = some attrs) (hl : s.labels = some labs)
    (hlen : attrs.length = labs.length)
    (hsplit : o.train_test_split attrs labs (create_model inputs).test_size =
      Except.ok (Xtrain, Xtest, ytrain, ytest))
    (hfit : o.fit (create_model inputs).cfg Xtrain (ravel ytrain) = Except.ok fm)
    (hpred : o.predict { params := (create_model inputs).cfg, fitted := some fm } Xtest =
      Except.ok ypred)
    (hproba : o.predict_proba { params := (create_model inputs).cfg, fitted := some fm } Xtest =
      Except.ok probas)
    (hacc : o.accuracy_score ypred ytest = Except.ok acc)
    (hroc : o.roc_auc_score ypred (col1 probas) = Except.ok auc)
    (hcvs : o.cross_val_score { params := (create_model inputs).cfg, fitted := some fm }
      attrs labs (create_model inputs).cv = Except.ok cvs) :
    run s o inputs = Except.ok
      ({ s with test_size := some (create_model inputs).test_size,
                cv := (create_model inputs).cv,
                regression := some { params := (create_model inputs).cfg, fitted := some fm },
                classes_ := some fm.classes_, coefficients := some fm.coef_,
                intercept := some fm.intercept_, n_iter_ := some fm.n_iter_,
                accuracy := some acc, roc_auc := some auc, cross_val_scores := some cvs },
       [CallTag.train_test_split, CallTag.fit, CallTag.predict, CallTag.predict_proba,
        CallTag.accuracy_score, CallTag.roc_auc_score, CallTag.cross_val_score],
       (create_model inputs).outs ++ [Out.resultsReport]) := by
  rw [run, check_inputs_valid s attrs labs ha hl hlen]
  simp only [hsplit, hfit, hpred, hproba, hacc, hroc, hcvs]

/-- C1: whenever the attribute row count differs from the label row count, or
either table is absent, `run()` prints a diagnostic and returns normally with
an unchanged instance state (in particular the `regression` handle stays
exactly as it was — absent when it was absent) and an empty collaborator-call
trace: no model construction, no split, no fit. -/
theorem run_invalid_dataset_skips_collaborator (s : LogRegression) (o : Oracle)
    (inputs : List String)
    (hbad : s.attributes = none ∨ s.labels = none ∨
      ∃ attrs labs, s.attributes = some attrs ∧ s.labels = some labs ∧
        attrs.length ≠ labs.length) :
    run s o inputs = Except.ok (s, [], (check_inputs s).2) ∧
      (check_inputs s).2 ≠ [] := by
  rcases hbad with ha | hl | ⟨attrs, labs, ha, hl, hlen⟩
  · have hc : check_inputs s = (none, [Out.errAttributesMissing]) := by
      simp [check_inputs, ha]
    rw [run, hc]
    simp [hc]
  · have hc : check_inputs s = (none, (match s.attributes with
      | none => [Out.errAttributesMissing]
      | some _ => [Out.errLabelsMissing])) := by
      cases hatt : s.attributes <;> simp [check_inputs, hatt, hl]
    rw [run, hc]
    cases hatt : s.attributes <;> simp [hc, hatt]
  · have hc : check_inputs s = (none, [Out.errRowMismatch]) := by
      simp [check_inputs, ha, hl, hlen]
    rw [run, hc]
    simp [hc]

/-- Witness for C1 at a concrete dataset with two attribute rows and one
label row. -/
theorem run_invalid_dataset_skips_collaborator_witness :
    run mismatchedState okOracle [] =
      Except.ok (mismatchedState, [], (check_inputs mismatchedState).2) ∧
      (check_inputs mismatchedState).2 ≠ [] :=
  run_invalid_dataset_skips_collaborator mismatchedState okOracle []
    (Or.inr (Or.inr ⟨[[1], [2]], [[3]], rfl, rfl, by decide⟩))

/-- C3: when the external fit routine faults during `run()`, the wrapper
prints a diagnostic together with the underlying fault message, resets the
model handle to absent, and returns at once: the call trace stops at `fit`
(no prediction, no scoring, no retry), and every result-metric field keeps
the value it had before the call (`None` on a fresh object). -/
theorem run_fit_fault_resets_and_returns (s : LogRegression) (o : Oracle)
    (inputs : List String) (attrs labs Xtrain Xtest ytrain ytest : Table)
    (e : String)
    (ha : s.attributes = some attrs) (hl : s.labels = some labs)
    (hlen : attrs.length = labs.length)
    (hsplit : o.train_test_split attrs labs (create_model inputs).test_size =
      Except.ok (Xtrain, Xtest, ytrain, ytest))
    (hfit : o.fit (create_model inputs).cfg Xtrain (ravel ytrain) = Except.error e) :
    run s o inputs = Except.ok
      ({ s with test_size := some (create_model inputs).test_size,
                cv := (create_model inputs).cv, regression := none },
       [CallTag.train_test_split, CallTag.fit],
       (create_model inputs).outs ++ [Out.fitExcHeader, Out.excMsgIntro, Out.excMsg e]) := by
  rw [run, check_inputs_valid s attrs labs ha hl hlen]
  simp only [hsplit, hfit]

/-- Witness for C3: a concrete valid dataset against a collaborator whose fit
routine faults. -/
theorem run_fit_fault_resets_and_returns_witness :
    run tinyState fitFaultOracle ["y"] = Except.ok
      ({ tinyState with test_size := some (create_model ["y"]).test_size,
                        cv := (create_model ["y"]).cv, regression := none },
       [CallTag.train_test_split, CallTag.fit],
       (create_model ["y"]).outs ++
         [Out.fitExcHeader, Out.excMsgIntro, Out.excMsg "bad input shapes"]) :=
  run_fit_fault_resets_and_returns tinyState fitFaultOracle ["y"]
    [[1]] [[0]] [[1]] [[1]] [[0]] [[0]] "bad input shapes" rfl rfl rfl rfl rfl

/-- C5: declining the defaults prompt and then answering the case-insensitive
quit sentinel at the very first hyperparameter prompt (the test-fraction
prompt) yields exactly the all-defaults configuration: test fraction 0.25, no
cross-validation fold count, and a model equal to `LogisticRegression()`
(penalty l2, tol 0.0001, C 1.0, fit_intercept true, solver lbfgs, max_iter
100, multi_class auto, and every remaining field at its default). -/
theorem quit_at_first_prompt_yields_default_config :
    (create_model ["n", "q"]).cfg = defaultConfig ∧
    (create_model ["n", "q"]).test_size = 1 / 4 ∧
    (create_model ["n", "q"]).cv = none ∧
    (create_model ["n", "Q"]).cfg = defaultConfig ∧
    (create_model ["n", "Q"]).test_size = 1 / 4 ∧
    (create_model ["n", "Q"]).cv = none ∧
    defaultConfig.penalty = "l2" ∧ defaultConfig.tol = 1 / 10000 ∧
    defaultConfig.C = 1 ∧ defaultConfig.fit_intercept = true ∧
    defaultConfig.solver = "lbfgs" ∧ defaultConfig.max_iter = 100 ∧
    defaultConfig.multi_class = "auto" ∧ defaultConfig.l1_ratio = none :=
  ⟨rfl, rfl, rfl, rfl, rfl, rfl, rfl, rfl, rfl, rfl, rfl, rfl, rfl, rfl⟩

/-- C6: a response that fails to parse against the prompted field's expected
type and is not the quit sentinel silently keeps the field's prior (default)
value and moves on to the next prompt, for every field in the sequence — the
float-valued prompts, the int-valued prompts, the yes/no prompts (a response
matching neither the trigger nor the sentinel), the menu prompts (a response
matching no listed choice), and the elastic-net mixing ratio prompted last
(where the source leaves the collection loop on any parse failure, sentinel or
not, keeping the default; no later field is prompted in either case since the
loop body ends right after it). -/
theorem parse_failure_keeps_default_and_continues :
    (∀ (ask : List Out) (upd : Sess → ℚ → Sess) (st : Sess),
       st.stopped = false → pyFloat (firstInput st.inputs) = none →
       pyLower (firstInput st.inputs) ≠ "q" →
       floatPrompt ask upd st =
         { st with inputs := st.inputs.tail, outs := st.outs ++ ask }) ∧
    (∀ (ask : List Out) (upd : Sess → ℤ → Sess) (st : Sess),
       st.stopped = false → pyInt (firstInput st.inputs) = none →
       pyLower (firstInput st.inputs) ≠ "q" →
       intPrompt ask upd st =
         { st with inputs := st.inputs.tail, outs := st.outs ++ ask }) ∧
    (∀ (ask : List Out) (trigger : String) (hit : Config → Config) (st : Sess),
       st.stopped = false → pyLower (firstInput st.inputs) ≠ trigger →
       pyLower (firstInput st.inputs) ≠ "q" →
       ynPrompt ask trigger hit st =
         { st with inputs := st.inputs.tail, outs := st.outs ++ ask }) ∧
    (∀ (ask : List Out) (choices : List (String × (Config → Config))) (st : Sess),
       st.stopped = false → pyLower (firstInput st.inputs) ≠ "q" →
       choices.find? (fun p => p.1 == firstInput st.inputs) = none →
       choicePrompt ask choices st =
         { st with inputs := st.inputs.tail, outs := st.outs ++ ask }) ∧
    (∀ st : Sess,
       st.stopped = false → st.cfg.penalty = "elasticnet" →
       pyFloat (firstInput st.inputs) = none →
       (l1RatioStep st).cfg.l1_ratio = st.cfg.l1_ratio ∧
       (l1RatioStep st).outs = st.outs ++ [Out.askL1Ratio]) := by
  refine ⟨?_, ?_, ?_, ?_, ?_⟩
  · intro ask upd st h0 hp hq
    simp [floatPrompt, h0, hp, hq]
  · intro ask upd st h0 hp hq
    simp [intPrompt, h0, hp, hq]
  · intro ask trigger hit st h0 ht hq
    simp [ynPrompt, h0, ht, hq]
  · intro ask choices st h0 hq hf
    simp [choicePrompt, h0, hq, hf]
  · intro st h0 hpen hp
    simp [l1RatioStep, h0, hpen, hp]

/-- Witness for C6 at the response "abc", which parses as neither a float,
an int, a yes/no answer, a menu choice, nor the sentinel. -/
theorem parse_failure_keeps_default_and_continues_witness :
    floatPrompt [Out.askTol] (fun st v => { st with cfg := { st.cfg with tol := v } }) sampleSess =
      { sampleSess with inputs := sampleSess.inputs.tail,
                        outs := sampleSess.outs ++ [Out.askTol] } ∧
    intPrompt [Out.askMaxIter] (fun st v => { st with cfg := { st.cfg with max_iter := v } }) sampleSess =
      { sampleSess with inputs := sampleSess.inputs.tail,
                        outs := sampleSess.outs ++ [Out.askMaxIter] } ∧
    ynPrompt [Out.askDual] "y" (fun c => { c with dual := true }) sampleSess =
      { sampleSess with inputs := sampleSess.inputs.tail,
                        outs := sampleSess.outs ++ [Out.askDual] } ∧
    choicePrompt [Out.penaltyMenu, Out.askPenalty]
        [("1", fun c => { c with penalty := "l1" }),
         ("3", fun c => { c with penalty := "elasticnet" }),
         ("4", fun c => { c with penalty := "none" })] sampleSess =
      { sampleSess with inputs := sampleSess.inputs.tail,
                        outs := sampleSess.outs ++ [Out.penaltyMenu, Out.askPenalty] } ∧
    (l1RatioStep elasticSess).cfg.l1_ratio = elasticSess.cfg.l1_ratio ∧
    (l1RatioStep elasticSess).outs = elasticSess.outs ++ [Out.askL1Ratio] := by
  refine ⟨?_, ?_, ?_, ?_, ?_⟩
  · exact parse_failure_keeps_default_and_continues.1 [Out.askTol] _ sampleSess rfl
      (by decide) (by decide)
  · exact parse_failure_keeps_default_and_continues.2.1 [Out.askMaxIter] _ sampleSess rfl
      (by decide) (by decide)
  · exact parse_failure_keeps_default_and_continues.2.2.1 [Out.askDual] "y" _ sampleSess rfl
      (by decide) (by decide)
  · exact parse_failure_keeps_default_and_continues.2.2.2.1 [Out.penaltyMenu, Out.askPenalty]
      _ sampleSess rfl (by decide) rfl
  · exact parse_failure_keeps_default_and_continues.2.2.2.2 elasticSess rfl rfl (by decide)

/-- C7: the intercept-scaling prompt is issued if and only if intercept
fitting is enabled at that point of the session, and the elastic-net
mixing-ratio prompt is issued if and only if the penalty chosen earlier in the
same session is elasticnet; when the gating condition fails, the session state
(the gated field's default included) is untouched and no response is
consumed. -/
theorem gated_prompts_iff_gate_holds :
    (∀ st : Sess, st.cfg.fit_intercept = false → interceptScalingStep st = st) ∧
    (∀ st : Sess, st.stopped = false → st.cfg.fit_intercept = true →
       (interceptScalingStep st).outs = st.outs ++ [Out.askInterceptScaling] ∧
       (interceptScalingStep st).inputs = st.inputs.tail) ∧
    (∀ st : Sess, st.cfg.penalty ≠ "elasticnet" → l1RatioStep st = st) ∧
    (∀ st : Sess, st.stopped = false → st.cfg.penalty = "elasticnet" →
       (l1RatioStep st).outs = st.outs ++ [Out.askL1Ratio] ∧
       (l1RatioStep st).inputs = st.inputs.tail) := by
  refine ⟨?_, ?_, ?_, ?_⟩
  · intro st h
    simp [interceptScalingStep, h]
  · intro st h0 h
    cases hp : pyFloat (firstInput st.inputs) with
    | none =>
      cases hq : pyLower (firstInput st.inputs) == "q" <;>
        simp [interceptScalingStep, floatPrompt, h0, h, hp, hq]
    | some v =>
      simp [interceptScalingStep, floatPrompt, h0, h, hp]
  · intro st h
    cases h0 : st.stopped <;> simp [l1RatioStep, h0, h]
  · intro st h0 h
    cases hp : pyFloat (firstInput st.inputs) with
    | none => simp [l1RatioStep, h0, h, hp]
    | some v => simp [l1RatioStep, h0, h, hp]

/-- Witness for C7: the gate failing (no prompt, untouched session) and the
gate holding (prompt issued, one response consumed), for both gated fields. -/
theorem gated_prompts_iff_gate_holds_witness :
    interceptScalingStep noInterceptSess = noInterceptSess ∧
    (interceptScalingStep sampleSess).outs = sampleSess.outs ++ [Out.askInterceptScaling] ∧
    (interceptScalingStep sampleSess).inputs = sampleSess.inputs.tail ∧
    l1RatioStep sampleSess = sampleSess ∧
    (l1RatioStep elasticSess).outs = elasticSess.outs ++ [Out.askL1Ratio] ∧
    (l1RatioStep elasticSess).inputs = elasticSess.inputs.tail := by
  refine ⟨?_, ?_, ?_, ?_, ?_, ?_⟩
  · exact gated_prompts_iff_gate_holds.1 noInterceptSess rfl
  · exact (gated_prompts_iff_gate_holds.2.1 sampleSess rfl rfl).1
  · exact (gated_prompts_iff_gate_holds.2.1 sampleSess rfl rfl).2
  · exact gated_prompts_iff_gate_holds.2.2.1 sampleSess (by decide)
  · exact (gated_prompts_iff_gate_holds.2.2.2 elasticSess rfl rfl).1
  · exact (gated_prompts_iff_gate_holds.2.2.2 elasticSess rfl rfl).2

/-- C2 counterexample: a fault raised by `train_test_split` during `run()` is
not caught — the source wraps only the `fit` call in `try`/`except` — so at
this concrete valid dataset and a collaborator whose splitting routine faults,
`run()` propagates the fault as an uncaught error, contradicting the claim
that no fault from any collaborator routine ever propagates out of `run()`. -/
theorem split_fault_uncaught_counterexample :
    isFault (run tinyState splitFaultOracle ["y"]) = true :=
  rfl

/-- C2 (amended): only the `fit` call inside `run()` and the `predict` call
inside `predict()` sit at a guarded boundary.  Whatever the fit routine does,
`run()` returns normally provided the unguarded routines do not fault; and a
fault from the collaborator's predict routine inside `predict()` is converted
to a printed diagnostic with the underlying message plus a return carrying no
result. -/
theorem fit_and_predict_faults_caught :
    (∀ (s : LogRegression) (o : Oracle) (inputs : List String),
       (∀ a l t, isFault (o.train_test_split a l t) = false) →
       (∀ m x, isFault (o.predict m x) = false) →
       (∀ m x, isFault (o.predict_proba m x) = false) →
       (∀ p a, isFault (o.accuracy_score p a) = false) →
       (∀ p pr, isFault (o.roc_auc_score p pr) = false) →
       (∀ m a l k, isFault (o.cross_val_score m a l k) = false) →
       isFault (run s o inputs) = false) ∧
    (∀ (s : LogRegression) (o : Oracle) (X : Table) (m : Model) (e : String),
       s.regression = some m → o.predict m X = Except.error e →
       predict s o X = (none, [CallTag.predict],
         [Out.predictFailHeader, Out.excMsgIntro, Out.excMsg e])) := by
  constructor
  · intro s o inputs hsp hpr hpp hac hro hcv
    rcases hc : check_inputs s with ⟨opt, outs1⟩
    cases opt with
    | none => simp [run, hc, isFault]
    | some pair =>
      obtain ⟨attrs, labs⟩ := pair
      simp only [run, hc]
      cases hts : o.train_test_split attrs labs (create_model inputs).test_size with
      | error e =>
        have hfalse := hsp attrs labs (create_model inputs).test_size
        rw [hts] at hfalse
        exact absurd hfalse (by simp [isFault])
      | ok q =>
        obtain ⟨Xtr, Xte, ytr, yte⟩ := q
        dsimp only
        cases hf : o.fit (create_model inputs).cfg Xtr (ravel ytr) with
        | error e => rfl
        | ok fm =>
          dsimp only
          cases hp : o.predict { params := (create_model inputs).cfg, fitted := some fm } Xte with
          | error e =>
            have hfalse := hpr { params := (create_model inputs).cfg, fitted := some fm } Xte
            rw [hp] at hfalse
            exact absurd hfalse (by simp [isFault])
          | ok ypred =>
            dsimp only
            cases hq : o.predict_proba { params := (create_model inputs).cfg, fitted := some fm } Xte with
            | error e =>
              have hfalse := hpp { params := (create_model inputs).cfg, fitted := some fm } Xte
              rw [hq] at hfalse
              exact absurd hfalse (by simp [isFault])
            | ok probas =>
              dsimp only
              cases ha2 : o.accuracy_score ypred yte with
              | error e =>
                have hfalse := hac ypred yte
                rw [ha2] at hfalse
                exact absurd hfalse (by simp [isFault])
              | ok acc =>
                dsimp only
                cases hr2 : o.roc_auc_score ypred (col1 probas) with
                | error e =>
                  have hfalse := hro ypred (col1 probas)
                  rw [hr2] at hfalse
                  exact absurd hfalse (by simp [isFault])
                | ok auc =>
                  dsimp only
                  cases hc2 : o.cross_val_score { params := (create_model inputs).cfg, fitted := some fm } attrs labs (create_model inputs).cv with
                  | error e =>
                    have hfalse := hcv { params := (create_model inputs).cfg, fitted := some fm } attrs labs (create_model inputs).cv
                    rw [hc2] at hfalse
                    exact absurd hfalse (by simp [isFault])
                  | ok cvs => rfl
  · intro s o X m e hm hp
    simp [predict, hm, hp]

/-- Witness for the amended C2: a faulting fit is absorbed by `run()`, and a
faulting predict is absorbed by `predict()` with the message reported. -/
theorem fit_and_predict_faults_caught_witness :
    isFault (run tinyState fitFaultOracle ["y"]) = false ∧
    predict handleState predFaultOracle [[1]] =
      (none, [CallTag.predict],
       [Out.predictFailHeader, Out.excMsgIntro, Out.excMsg "wrong feature count"]) := by
  constructor
  · exact fit_and_predict_faults_caught.1 tinyState fitFaultOracle ["y"]
      (fun a l t => rfl) (fun m x => rfl) (fun m x => rfl) (fun p a => rfl)
      (fun p pr => rfl) (fun m a l k => rfl)
  · exact fit_and_predict_faults_caught.2 handleState predFaultOracle [[1]]
      { params := defaultConfig, fitted := none } "wrong feature count" rfl rfl

/-- C4: on a successful fit, the stored ROC-AUC score is the collaborator's
rocAuc routine applied to the labels predicted on the testing partition
(`ypred`, the first argument — not the held-out true labels `ytest`) and the
predicted class-1 probabilities (`col1 probas`, the second argument); the
stored accuracy is the accuracy routine applied to the predicted labels and
the held-out true labels. -/
theorem run_metrics_roc_auc_uses_predictions (s : LogRegression) (o : Oracle)
    (inputs : List String)
    (attrs labs Xtrain Xtest ytrain ytest : Table) (fm : FittedModel)
    (ypred : List ℚ) (probas : List (List ℚ)) (acc auc : ℚ) (cvs : List ℚ)
    (ha : s.attributes = some attrs) (hl : s.labels = some labs)
    (hlen : attrs.length = labs.length)
    (hsplit : o.train_test_split attrs labs (create_model inputs).test_size =
      Except.ok (Xtrain, Xtest, ytrain, ytest))
    (hfit : o.fit (create_model inputs).cfg Xtrain (ravel ytrain) = Except.ok fm)
    (hpred : o.predict { params := (create_model inputs).cfg, fitted := some fm } Xtest =
      Except.ok ypred)
    (hproba : o.predict_proba { params := (create_model inputs).cfg, fitted := some fm } Xtest =
      Except.ok probas)
    (hacc : o.accuracy_score ypred ytest = Except.ok acc)
    (hroc : o.roc_auc_score ypred (col1 probas) = Except.ok auc)
    (hcvs : o.cross_val_score { params := (create_model inputs).cfg, fitted := some fm }
      attrs labs (create_model inputs).cv = Except.ok cvs) :
    isFault (run s o inputs) = false ∧
    (resState (run s o inputs)).accuracy = some acc ∧
    (resState (run s o inputs)).roc_auc = some auc := by
  rw [run_success s o inputs attrs labs Xtrain Xtest ytrain ytest fm ypred probas acc auc cvs
    ha hl hlen hsplit hfit hpred hproba hacc hroc hcvs]
  exact ⟨rfl, rfl, rfl⟩

/-- Witness for C4 at a concrete dataset and an all-success collaborator. -/
theorem run_metrics_roc_auc_uses_predictions_witness :
    isFault (run tinyState okOracle ["y"]) = false ∧
    (resState (run tinyState okOracle ["y"])).accuracy = some 1 ∧
    (resState (run tinyState okOracle ["y"])).roc_auc = some 1 :=
  run_metrics_roc_auc_uses_predictions tinyState okOracle ["y"]
    [[1]] [[0]] [[1]] [[1]] [[0]] [[0]]
    { classes_ := [0, 1], coef_ := [[1]], intercept_ := [0], n_iter_ := [7] }
    [1] [[0, 1]] 1 1 (List.replicate 5 1)
    rfl rfl rfl rfl rfl rfl rfl rfl rfl rfl

/-- C8: on a successful fit, the stored cross-validation scores are exactly
the collaborator's cross-validation routine applied to the fitted model, the
entire attribute table, the entire label table (not the training partition),
and the configured fold count; under the collaborator's contract that a
cross-validation call returns one score per fold (its own default `d` when the
fold count is unset), the number of stored scores equals that fold count. -/
theorem cross_val_over_full_dataset_fold_count (s : LogRegression) (o : Oracle)
    (inputs : List String)
    (attrs labs Xtrain Xtest ytrain ytest : Table) (fm : FittedModel)
    (ypred : List ℚ) (probas : List (List ℚ)) (acc auc : ℚ) (cvs : List ℚ) (d : ℕ)
    (ha : s.attributes = some attrs) (hl : s.labels = some labs)
    (hlen : attrs.length = labs.length)
    (hsplit : o.train_test_split attrs labs (create_model inputs).test_size =
      Except.ok (Xtrain, Xtest, ytrain, ytest))
    (hfit : o.fit (create_model inputs).cfg Xtrain (ravel ytrain) = Except.ok fm)
    (hpred : o.predict { params := (create_model inputs).cfg, fitted := some fm } Xtest =
      Except.ok ypred)
    (hproba : o.predict_proba { params := (create_model inputs).cfg, fitted := some fm } Xtest =
      Except.ok probas)
    (hacc : o.accuracy_score ypred ytest = Except.ok acc)
    (hroc : o.roc_auc_score ypred (col1 probas) = Except.ok auc)
    (hcvs : o.cross_val_score { params := (create_model inputs).cfg, fitted := some fm }
      attrs labs (create_model inputs).cv = Except.ok cvs)
    (hcount : ∀ (m : Model) (a l : Table) (k : Option ℤ) (r : List ℚ),
      o.cross_val_score m a l k = Except.ok r → r.length = foldCount k d) :
    (resState (run s o inputs)).cross_val_scores = some cvs ∧
    cvs.length = foldCount (create_model inputs).cv d := by
  rw [run_success s o inputs attrs labs Xtrain Xtest ytrain ytest fm ypred probas acc auc cvs
    ha hl hlen hsplit hfit hpred hproba hacc hroc hcvs]
  exact ⟨rfl, hcount { params := (create_model inputs).cfg, fitted := some fm }
    attrs labs (create_model inputs).cv cvs hcvs⟩

/-- Witness for C8: with the defaults session the fold count is unset, and the
stored score sequence has the collaborator's default length 5. -/
theorem cross_val_over_full_dataset_fold_count_witness :
    (resState (run tinyState okOracle ["y"])).cross_val_scores =
      some (List.replicate 5 1) ∧
    (List.replicate (5 : ℕ) (1 : ℚ)).length = foldCount (create_model ["y"]).cv 5 :=
  cross_val_over_full_dataset_fold_count tinyState okOracle ["y"]
    [[1]] [[0]] [[1]] [[1]] [[0]] [[0]]
    { classes_ := [0, 1], coef_ := [[1]], intercept_ := [0], n_iter_ := [7] }
    [1] [[0, 1]] 1 1 (List.replicate 5 1) 5
    rfl rfl rfl rfl rfl rfl rfl rfl rfl rfl
    (by
      intro m a l k r h
      cases h
      simp [List.length_replicate])

/-- C9: `predict()` with an absent model handle prints a diagnostic and
returns no result without invoking the collaborator (empty call trace); with a
present handle it returns the collaborator's predicted labels, or no result
plus a diagnostic with the underlying message when the collaborator faults. -/
theorem predict_requires_fitted_model :
    (∀ (s : LogRegression) (o : Oracle) (X : Table), s.regression = none →
       predict s o X = (none, [], [Out.predictMissingModel])) ∧
    (∀ (s : LogRegression) (o : Oracle) (X : Table) (m : Model) (y : List ℚ),
       s.regression = some m → o.predict m X = Except.ok y →
       predict s o X = (some y, [CallTag.predict], [Out.predictions y])) ∧
    (∀ (s : LogRegression) (o : Oracle) (X : Table) (m : Model) (e : String),
       s.regression = some m → o.predict m X = Except.error e →
       predict s o X = (none, [CallTag.predict],
         [Out.predictFailHeader, Out.excMsgIntro, Out.excMsg e])) := by
  refine ⟨?_, ?_, ?_⟩
  · intro s o X h
    simp [predict, h]
  · intro s o X m y hm hy
    simp [predict, hm, hy]
  · intro s o X m e hm he
    simp [predict, hm, he]

/-- Witness for C9: the three behaviors at concrete states. -/
theorem predict_requires_fitted_model_witness :
    predict (init none none) okOracle [[1]] = (none, [], [Out.predictMissingModel]) ∧
    predict handleState okOracle [[1]] =
      (some [1], [CallTag.predict], [Out.predictions [1]]) ∧
    predict handleState predFaultOracle [[2]] =
      (none, [CallTag.predict],
       [Out.predictFailHeader, Out.excMsgIntro, Out.excMsg "wrong feature count"]) :=
  ⟨predict_requires_fitted_model.1 (init none none) okOracle [[1]] rfl,
   predict_requires_fitted_model.2.1 handleState okOracle [[1]]
     { params := defaultConfig, fitted := none } [1] rfl rfl,
   predict_requires_fitted_model.2.2 handleState predFaultOracle [[2]]
     { params := defaultConfig, fitted := none } "wrong feature count" rfl rfl⟩

/-- C10: the pass-through accessors never expose the learned results: reading
`get_classes` yields an AttributeError in every state, because the attribute
`classes` is never assigned (run() stores the class labels under `classes_`);
and `get_coefficents` reads `coef_`, which is `None` on a fresh object and is
never modified by any normal return of `run()` (run() stores the coefficient
matrix under `coefficients`), so it returns `None` even after a successful
run. -/
theorem accessors_never_expose_results :
    (∀ s : LogRegression, get_classes s = GetResult.attributeError) ∧
    (∀ a l : Option Table, get_coefficents (init a l) = none) ∧
    (∀ (s : LogRegression) (o : Oracle) (inputs : List String)
       (s2 : LogRegression) (tags : List CallTag) (outs : List Out),
       run s o inputs = Except.ok (s2, tags, outs) →
       get_coefficents s2 = get_coefficents s) := by
  refine ⟨?_, ?_, ?_⟩
  · intro s
    rfl
  · intro a l
    rfl
  · intro s o inputs s2 tags outs h
    rcases hc : check_inputs s with ⟨opt, outs1⟩
    cases opt with
    | none =>
      simp only [run, hc] at h
      obtain ⟨h1, -, -⟩ := Prod.mk.injEq .. ▸ Except.ok.inj h
      rw [h1]
    | some pair =>
      obtain ⟨attrs, labs⟩ := pair
      simp only [run, hc] at h
      cases hts : o.train_test_split attrs labs (create_model inputs).test_size with
      | error e =>
        rw [hts] at h
        exact Except.noConfusion h
      | ok q =>
        obtain ⟨Xtr, Xte, ytr, yte⟩ := q
        rw [hts] at h
        dsimp only at h
        cases hf : o.fit (create_model inputs).cfg Xtr (ravel ytr) with
        | error e =>
          rw [hf] at h
          obtain ⟨h1, -, -⟩ := Prod.mk.injEq .. ▸ Except.ok.inj h
          rw [← h1]
          rfl
        | ok fm =>
          rw [hf] at h
          dsimp only at h
          cases hp : o.predict { params := (create_model inputs).cfg, fitted := some fm } Xte with
          | error e =>
            rw [hp] at h
            exact Except.noConfusion h
          | ok ypred =>
            rw [hp] at h
            dsimp only at h
            cases hq : o.predict_proba { params := (create_model inputs).cfg, fitted := some fm } Xte with
            | error e =>
              rw [hq] at h
              exact Except.noConfusion h
            | ok probas =>
              rw [hq] at h
              dsimp only at h
              cases ha2 : o.accuracy_score ypred yte with
              | error e =>
                rw [ha2] at h
                exact Except.noConfusion h
              | ok acc =>
                rw [ha2] at h
                dsimp only at h
                cases hr2 : o.roc_auc_score ypred (col1 probas) with
                | error e =>
                  rw [hr2] at h
                  exact Except.noConfusion h
                | ok auc =>
                  rw [hr2] at h
                  dsimp only at h
                  cases hc2 : o.cross_val_score { params := (create_model inputs).cfg, fitted := some fm } attrs labs (create_model inputs).cv with
                  | error e =>
                    rw [hc2] at h
                    exact Except.noConfusion h
                  | ok cvs =>
                    rw [hc2] at h
                    dsimp only at h
                    obtain ⟨h1, -, -⟩ := Prod.mk.injEq .. ▸ Except.ok.inj h
                    rw [← h1]
                    rfl

/-- Witness for C10: the accessors at a fresh object, and `get_coefficents`
after a concrete successful run. -/
theorem accessors_never_expose_results_witness :
    get_classes (init none none) = GetResult.attributeError ∧
    get_coefficents (init (some [[1]]) (some [[0]])) = none ∧
    get_coefficents (resState (run tinyState okOracle ["y"])) = none := by
  refine ⟨accessors_never_expose_results.1 (init none none),
          accessors_never_expose_results.2.1 (some [[1]]) (some [[0]]), ?_⟩
  cases hr : run tinyState okOracle ["y"] with
  | error e =>
    rfl
  | ok t =>
    obtain ⟨s2, tags, outs⟩ := t
    have h2 := accessors_never_expose_results.2.2 tinyState okOracle ["y"] s2 tags outs hr
    simpa [resState] using h2

end ManufacturingNet
